import Mathlib

/-!
Shallow embedding of `anaconda_lib/linting/sublime.py`, the linting
aggregation and range-resolution engine of the anaconda Sublime Text plugin.

Modelling conventions: Python strings are `List Char`; a Sublime `Region` is
a pair of character offsets, with the one-argument constructor producing a
point region; the view (buffer) is its list of lines plus the lexical
classification oracle behind `view.match_selector`; the Python `re` module is
abstracted to exactly what the code observes (whether a pattern matches and
the named-group spans of each match); Python exceptions are modelled with
`Except`; Python dictionaries with list defaults are total maps defaulting
to `[]`, and dictionaries with membership tests map into `Option`.
-/

/-- A Python string, as its list of characters. -/
abbrev PyStr := List Char

/-- A per-line message dictionary (`ERRORS[vid]` and friends): line index to
its list of messages, with a missing key reading as `[]` as in
`dict.get(lineno, [])`. -/
abbrev Msgs := Nat → List PyStr

/-- The empty message dictionary `{}`. -/
def emptyMsgs : Msgs := fun _ => []

/-- A `sublime.Region`: a pair of character offsets `a`, `b`. -/
structure Region where
  a : Nat
  b : Nat
deriving DecidableEq, Repr

/-- The one-argument constructor `sublime.Region(pt)`: both endpoints are
`pt`, an empty (point) region. -/
def Region.point (pt : Nat) : Region := ⟨pt, pt⟩

/-- The Sublime view: the buffer's lines (without terminators) and the
lexical classifier consulted through
`view.match_selector(point, matcher)`. -/
structure View where
  lines : List PyStr
  match_selector : Nat → Bool

/-- The conversion `lineno -= 1` (one-based analyzer line numbers to the
zero-based line numbers ST3 wants). -/
def to_zero_based (lineno : Nat) : Nat := lineno - 1

/-- The conversion `lineno += 1` in `underline_regex` (back to one-based for
`underline_range`). -/
def to_one_based (lineno0 : Nat) : Nat := lineno0 + 1

/-- The offset `view.full_line(view.text_point(lineno0, 0)).begin()`: where
line `lineno0` starts in the buffer (each earlier line contributes its length
plus one for its newline). -/
def lineBegin (v : View) (lineno0 : Nat) : Nat :=
  ((v.lines.take lineno0).map (fun s => s.length + 1)).sum

/-- The text `view.substr(view.full_line(view.text_point(lineno0, 0)))`: the
line's characters including the trailing newline. -/
def lineText (v : View) (lineno0 : Nat) : PyStr :=
  (v.lines.getD lineno0 []) ++ ['\n']

/-- `Linter.is_that_code`: whether the point matches the selector
`source.python - string - comment`, i.e. is code outside strings and
comments. -/
def is_that_code (v : View) (point : Nat) : Bool :=
  v.match_selector point

/-- `Linter.underline_range`: make `position` absolute by adding the line
start, then for each `i < length` append the point region
`sublime.Region(position + i)` to `underlines` when the position classifies
as code. -/
def underline_range (v : View) (lineno : Nat) (position : Nat)
    (underlines : List Region) (length : Nat) : List Region :=
  let lineno0 := to_zero_based lineno
  let position := position + lineBegin v lineno0
  underlines ++ (List.range length).filterMap (fun i =>
    if is_that_code v (position + i) = true then some (Region.point (position + i))
    else none)

/-- A Python `re` match object, abstracted to what the code reads from it:
for a group name, the group's span within the searched text and its captured
text, or `none` when the pattern has no group of that name. -/
structure ReMatch where
  groups : String → Option (Nat × Nat × PyStr)

/-- A compiled Python regex, abstracted to the two entry points the code
uses: `re.match` and `re.finditer` against a text. -/
structure RePattern where
  rmatch : PyStr → Option ReMatch
  rfinditer : PyStr → List ReMatch

/-- The Python exceptions this module can raise. -/
inductive PyErr
  /-- `IndexError: no such group`, from `Match.group`, `Match.start` or
  `Match.end` on a pattern lacking the named group. -/
  | noSuchGroup (name : String)
  /-- `IndexError: string index out of range`, from `message[0]` on an empty
  message in `add_message`. -/
  | emptyMessage
deriving DecidableEq, Repr

/-- The list comprehension in `underline_regex`: read each match's
`underline` group span, keep it when `wordmatch` is absent or equals the
captured text; any match whose pattern lacks the group raises. -/
def collectSpans (wordmatch : Option PyStr) :
    List ReMatch → Except PyErr (List (Nat × Nat))
  | [] => .ok []
  | r :: rs =>
    match r.groups "underline" with
    | none => .error (.noSuchGroup "underline")
    | some (s, e, txt) =>
      match collectSpans wordmatch rs with
      | .error pe => .error pe
      | .ok rest =>
        .ok (if wordmatch = none ∨ wordmatch = some txt then (s, e) :: rest else rest)

/-- The final loop of `underline_regex`: each collected span `(start, end)`
is underlined at `start + offset` with length `end - start`. -/
def underlineSpans (v : View) (lineno : Nat) (offset : Nat)
    (underlines : List Region) : List (Nat × Nat) → List Region
  | [] => underlines
  | (s, e) :: rest =>
    underlineSpans v lineno offset
      (underline_range v lineno (s + offset) underlines (e - s)) rest

/-- `Linter.underline_regex`: record the zero-based line as touched; when a
`linematch` pattern is given, `re.match` it against the line text — no match
returns early with no underlines, a match restricts the search to its `match`
group and its offset; then run `regex` over the (sub)text and underline every
collected span. The updated touched-line set and underline list are
returned. -/
def underline_regex (v : View) (lineno : Nat) (linematch : Option RePattern)
    (regex : RePattern) (wordmatch : Option PyStr) (lines : Finset Nat)
    (underlines : List Region) : Except PyErr (Finset Nat × List Region) :=
  let lineno0 := to_zero_based lineno
  let lines := insert lineno0 lines
  let line_text := lineText v lineno0
  match linematch with
  | none =>
    match collectSpans wordmatch (regex.rfinditer line_text) with
    | .error pe => .error pe
    | .ok spans =>
      .ok (lines, underlineSpans v (to_one_based lineno0) 0 underlines spans)
  | some lm =>
    match lm.rmatch line_text with
    | none => .ok (lines, underlines)
    | some m =>
      match m.groups "match" with
      | none => .error (.noSuchGroup "match")
      | some (s, _e, txt) =>
        match collectSpans wordmatch (regex.rfinditer txt) with
        | .error pe => .error pe
        | .ok spans =>
          .ok (lines, underlineSpans v (to_one_based lineno0) s underlines spans)

/-- The message normalisation inside `add_message`:
`message[0].upper() + message[1:]` (modelled with `Char.toUpper`), then strip
one trailing period. `none` models the `IndexError` Python raises indexing an
empty message. -/
def normalizeMsg : PyStr → Option PyStr
  | [] => none
  | c :: rest =>
    let m := c.toUpper :: rest
    some (if m.getLast? = some '.' then m.dropLast else m)

/-- Appending a message under the line key, as the `if lineno in messages`
branch pair does on a map defaulting to `[]`. -/
def addMsg (messages : Msgs) (lineno0 : Nat) (m : PyStr) : Msgs :=
  fun l => if l = lineno0 then messages l ++ [m] else messages l

/-- `Linter.add_message`: convert the line to zero-based, mark it touched,
normalise the message and append it to that line's list. -/
def add_message (lineno : Nat) (lines : Finset Nat) (message : PyStr)
    (messages : Msgs) : Except PyErr (Finset Nat × Msgs) :=
  let lineno0 := to_zero_based lineno
  match normalizeMsg message with
  | none => .error .emptyMessage
  | some m => .ok (insert lineno0 lines, addMsg messages lineno0 m)

/-- Whether `small` occurs at the start of `big`. -/
def listStartsWith : PyStr → PyStr → Bool
  | [], _ => true
  | _ :: _, [] => false
  | p :: ps, c :: cs => p == c && listStartsWith ps cs

/-- Whether `pat` occurs as a contiguous substring of the second list. -/
def containsSub (pat : PyStr) : PyStr → Bool
  | [] => listStartsWith pat []
  | c :: rest => listStartsWith pat (c :: rest) || containsSub pat rest

/-- The Python substring test `'import *' in raw_error`. -/
def hasImportStar (s : PyStr) : Bool := containsSub "import *".toList s

/-- The severity keys of the `errors_level` dictionary. -/
inductive Level
  | E
  | W
  | V
deriving DecidableEq, Repr

/-- One value of `errors_level`: the per-line message map (aliasing the
global store's entry for the view) and a fresh underline list. -/
structure ErrLevelState where
  messages : Msgs
  underlines : List Region

/-- The value returned by `parse_errors` / `parse_errors_pylint`: the
touched-line set and the severity-indexed `errors_level` dictionary. -/
structure ParseResult where
  lines : Finset Nat
  levels : Level → ErrLevelState

/-- Updating one severity's entry of the `errors_level` dictionary. -/
def setLevel (st : ParseResult) (lv : Level) (s : ErrLevelState) : ParseResult :=
  { st with levels := fun l => if l = lv then s else st.levels l }

/-- The freshly built `errors_level` dictionary: initial message maps from
the store, empty underline lists. -/
def initLevels (iE iW iV : Msgs) : Level → ErrLevelState
  | .E => ⟨iE, []⟩
  | .W => ⟨iW, []⟩
  | .V => ⟨iV, []⟩

/-- One raw diagnostic record handed to `parse_errors` (the pyflakes/pep8
shape). `level` carries the `error.get('level', 'W')` default already
applied; the regex-descriptor fields are the ones `**error` forwards to
`underline_regex`. -/
structure StdError where
  level : Level
  lineno : Nat
  raw_error : PyStr
  pep8 : Bool
  offset : Nat
  len : Option Nat
  linematch : Option RePattern
  regex : RePattern
  wordmatch : Option PyStr

/-- The body of the `for error in errors` loop of `parse_errors`: skip
import-star diagnostics when the setting asks to, otherwise record the
message and dispatch the underline to the pep8 (width 1), explicit-length or
regex path. -/
def processError (v : View) (ignore_star : Bool) (st : ParseResult)
    (err : StdError) : Except PyErr ParseResult :=
  if hasImportStar err.raw_error && ignore_star then .ok st
  else
    match add_message err.lineno st.lines err.raw_error
        (st.levels err.level).messages with
    | .error pe => .error pe
    | .ok (lines1, msgs1) =>
      let st1 := setLevel { st with lines := lines1 } err.level
        { (st.levels err.level) with messages := msgs1 }
      if err.pep8 then
        .ok (setLevel st1 err.level
          { (st1.levels err.level) with
            underlines :=
              underline_range v err.lineno err.offset
                (st1.levels err.level).underlines 1 })
      else
        match err.len with
        | some l =>
          .ok (setLevel st1 err.level
            { (st1.levels err.level) with
              underlines :=
                underline_range v err.lineno err.offset
                  (st1.levels err.level).underlines l })
        | none =>
          match underline_regex v err.lineno err.linematch err.regex
              err.wordmatch st1.lines (st1.levels err.level).underlines with
          | .error pe => .error pe
          | .ok (lines2, uls2) =>
            .ok (setLevel { st1 with lines := lines2 } err.level
              { (st1.levels err.level) with underlines := uls2 })

/-- `Linter.parse_errors`: build the severity dictionary over the store's
message maps and fold the loop body over the diagnostics (`errors is None`
short-circuits to the empty result). -/
def parse_errors (v : View) (ignore_star : Bool) (iE iW iV : Msgs)
    (errors : Option (List StdError)) : Except PyErr ParseResult :=
  let init : ParseResult := ⟨∅, initLevels iE iW iV⟩
  match errors with
  | none => .ok init
  | some errs => errs.foldlM (processError v ignore_star) init

/-- One raw pylint diagnostic (`parse_errors_pylint` shape). -/
structure PylintError where
  code : PyStr
  line : Nat
  message : PyStr
  offset : Option Nat

/-- The body of the inner pylint loop: skip a code in the ignore list unless
a pylint rcfile is configured, otherwise record the message and, when an
offset is present, a width-1 underline there. -/
def processPylintError (v : View) (pylint_ignores : List PyStr)
    (pylint_rcfile : Bool) (lv : Level) (st : ParseResult)
    (err : PylintError) : Except PyErr ParseResult :=
  if err.code ∈ pylint_ignores ∧ pylint_rcfile = false then .ok st
  else
    match add_message err.line st.lines err.message (st.levels lv).messages with
    | .error pe => .error pe
    | .ok (lines1, msgs1) =>
      let st1 := setLevel { st with lines := lines1 } lv
        { (st.levels lv) with messages := msgs1 }
      match err.offset with
      | none => .ok st1
      | some off =>
        .ok (setLevel st1 lv
          { (st1.levels lv) with
            underlines :=
              underline_range v err.line off (st1.levels lv).underlines 1 })

/-- `Linter.parse_errors_pylint`: the diagnostics arrive grouped by severity
(`errors.items()`, in insertion order); fold the inner loop over each
group. -/
def parse_errors_pylint (v : View) (pylint_ignores : List PyStr)
    (pylint_rcfile : Bool) (iE iW iV : Msgs)
    (errors : Option (List (Level × List PylintError))) :
    Except PyErr ParseResult :=
  let init : ParseResult := ⟨∅, initLevels iE iW iV⟩
  match errors with
  | none => .ok init
  | some groups =>
    groups.foldlM
      (fun st g =>
        g.2.foldlM (processPylintError v pylint_ignores pylint_rcfile g.1) st)
      init

/-- The merge step inside `parse_results` when pylint is active: the pep8
touched lines are unioned in (`results['lines'].update(...)`) and each
severity's pep8 underlines are appended one by one onto the pylint
underlines. The message maps need no merging: in the source both results
alias the same per-view store dictionaries, so the pep8 result's maps (built
on top of the pylint ones) are the shared final maps. -/
def merge_results (results pep8_results : ParseResult) : ParseResult :=
  { lines := results.lines ∪ pep8_results.lines
    levels := fun lv =>
      { messages := (pep8_results.levels lv).messages
        underlines :=
          (results.levels lv).underlines ++ (pep8_results.levels lv).underlines } }

/-- The global `ANACONDA` store, restricted to the per-view dictionaries the
lint results live in; each maps a view id to that view's entry, with `none`
for an absent key. -/
structure Store where
  ERRORS : Nat → Option Msgs
  WARNINGS : Nat → Option Msgs
  VIOLATIONS : Nat → Option Msgs
  UNDERLINES : Nat → Option (List Region)

/-- One guarded bucket read of `get_lineno_msgs`:
`if vid in DICT: extend(DICT[vid].get(lineno, []))`. -/
def bucketMsgs (bucket : Nat → Option Msgs) (vid : Nat) (lineno : Nat) :
    List PyStr :=
  match bucket vid with
  | some m => m lineno
  | none => []

/-- `get_lineno_msgs(view, lineno)`: with no selected line the result is
empty; otherwise the line's error, warning and violation messages are
concatenated in the order the code extends them. -/
def get_lineno_msgs (st : Store) (vid : Nat) (lineno : Option Nat) :
    List PyStr :=
  match lineno with
  | none => []
  | some l =>
    bucketMsgs st.ERRORS vid l ++ bucketMsgs st.WARNINGS vid l ++
      bucketMsgs st.VIOLATIONS vid l

/-- The messages-at-line lookup as the specification words it: errors, then
violations, then warnings (for comparison with `get_lineno_msgs`). -/
def messagesAt_spec (st : Store) (vid : Nat) (lineno : Option Nat) :
    List PyStr :=
  match lineno with
  | none => []
  | some l =>
    bucketMsgs st.ERRORS vid l ++ bucketMsgs st.VIOLATIONS vid l ++
      bucketMsgs st.WARNINGS vid l

/-- The payload the worker hands to `parse_results`, restricted to the fields
it reads. The Python `data['errors']` value has two possible shapes decided
by `use_pylint`; they are modelled as the two fields `errors` and
`errors_pylint`. -/
structure ResultData where
  vid : Nat
  success : Bool
  errors : Option (List StdError)
  errors_pylint : Option (List (Level × List PylintError))
  pep8_errors : Option (List StdError)

/-- `parse_results(data)`: bail out untouched on a failed run or a non-Python
view; otherwise reset the view's store entries, run the matching parser
(merging pep8 results into pylint results when pylint is active and
`data['pep8_errors']` is truthy) and write the message maps and the
error+violation+warning underline concatenation back into the store. The
presentation calls (`add_lint_marks`, `update_statusbar`) read but do not
change the store and are omitted. -/
def parse_results (store : Store) (v : View) (data : ResultData)
    (is_python : Bool) (use_pylint : Bool) (ignore_star : Bool)
    (pylint_ignores : List PyStr) (pylint_rcfile : Bool) :
    Except PyErr Store :=
  if data.success = false ∨ is_python = false then .ok store
  else
    let vid := data.vid
    let res : Except PyErr ParseResult :=
      if use_pylint = false then
        parse_errors v ignore_star emptyMsgs emptyMsgs emptyMsgs data.errors
      else
        match parse_errors_pylint v pylint_ignores pylint_rcfile
            emptyMsgs emptyMsgs emptyMsgs data.errors_pylint with
        | .error pe => .error pe
        | .ok r =>
          match data.pep8_errors with
          | some (e :: es) =>
            match parse_errors v ignore_star (r.levels .E).messages
                (r.levels .W).messages (r.levels .V).messages
                (some (e :: es)) with
            | .error pe => .error pe
            | .ok p => .ok (merge_results r p)
          | _ => .ok r
    match res with
    | .error pe => .error pe
    | .ok results =>
      .ok { store with
        ERRORS := fun i =>
          if i = vid then some (results.levels .E).messages else store.ERRORS i
        WARNINGS := fun i =>
          if i = vid then some (results.levels .W).messages else store.WARNINGS i
        VIOLATIONS := fun i =>
          if i = vid then some (results.levels .V).messages else store.VIOLATIONS i
        UNDERLINES := fun i =>
          if i = vid then
            some ((results.levels .E).underlines ++
              (results.levels .V).underlines ++ (results.levels .W).underlines)
          else store.UNDERLINES i }

/-- The `OutOfRange` desync error of the SourceLineAccessor contract. -/
inductive AccessErr
  | outOfRange
deriving DecidableEq, Repr

/-- Modelled from the spec: `SourceLineAccessor.lineTextAndStart(buffer,
lineIndex0)`. The repository delegates line lookup to the host editor
(`view.text_point` / `view.full_line`), which is not part of the repository
source; per the spec the accessor returns the line's text and start offset
and signals `OutOfRange` when `lineIndex0` exceeds the buffer's line
count. -/
def lineTextAndStart (v : View) (lineIndex0 : Nat) :
    Except AccessErr (PyStr × Nat) :=
  if lineIndex0 < v.lines.length then
    .ok (lineText v lineIndex0, lineBegin v lineIndex0)
  else
    .error .outOfRange

/-! Concrete fixtures used by the closed theorems below. -/

/-- A one-line view whose classifier approves every position. -/
def vAllCode : View :=
  { lines := ["import foo".toList], match_selector := fun _ => true }

/-- A store holding one warning and one violation on line 0 of view 7. -/
def stC1 : Store :=
  { ERRORS := fun i => if i = 7 then some emptyMsgs else none
    WARNINGS := fun i =>
      if i = 7 then some (addMsg emptyMsgs 0 "line too long".toList) else none
    VIOLATIONS := fun i =>
      if i = 7 then some (addMsg emptyMsgs 0 "bad name".toList) else none
    UNDERLINES := fun _ => none }

/-- C1: counterexample — with a warning and a violation recorded on the same
line, `get_lineno_msgs` returns the warning before the violation, so the
lookup differs from the error+violation+warning concatenation the claim
states. -/
theorem get_lineno_msgs_order_counterexample :
    get_lineno_msgs stC1 7 (some 0) ≠ messagesAt_spec stC1 7 (some 0) := by
  decide

/-- C1 (amended): the messages-at-line lookup is the concatenation of the
line's message lists in the order error, then warning, then violation. -/
theorem get_lineno_msgs_order (st : Store) (vid : Nat) (l : Nat) :
    get_lineno_msgs st vid (some l) =
      bucketMsgs st.ERRORS vid l ++ bucketMsgs st.WARNINGS vid l ++
        bucketMsgs st.VIOLATIONS vid l := rfl

/-- C2: counterexample — `underline_range` produces the point region
`(0, 0)`, refuting `startOffset < endOffset`. -/
theorem underline_range_lt_counterexample :
    ¬ (∀ r ∈ underline_range vAllCode 1 0 [] 1, r.a < r.b) := by
  decide

/-- C2 (amended): every region `underline_range` adds to the accumulator is
an empty point region (`startOffset = endOffset`) at a position classified as
code. -/
theorem underline_range_point_and_code (v : View) (lineno position n : Nat)
    (us : List Region) (r : Region)
    (h : r ∈ underline_range v lineno position us n) :
    r ∈ us ∨ (r.a = r.b ∧ is_that_code v r.a = true) := by
  unfold underline_range at h
  rcases List.mem_append.1 h with hus | hnew
  · exact Or.inl hus
  · rcases List.mem_filterMap.1 hnew with ⟨i, _hi, hf⟩
    right
    by_cases hc :
        is_that_code v (position + lineBegin v (to_zero_based lineno) + i) = true
    · rw [if_pos hc] at hf
      cases hf
      exact ⟨rfl, hc⟩
    · rw [if_neg hc] at hf
      cases hf

/-- C2 witness: the amended statement applied at a concrete view and the
concrete produced region `(0, 0)`. -/
theorem underline_range_point_and_code_witness :
    Region.point 0 ∈ underline_range vAllCode 1 0 [] 1 ∧
      (Region.point 0 ∈ ([] : List Region) ∨
        ((Region.point 0).a = (Region.point 0).b ∧
          is_that_code vAllCode (Region.point 0).a = true)) :=
  ⟨by decide,
   underline_range_point_and_code vAllCode 1 0 1 [] (Region.point 0) (by decide)⟩

/-- C3: counterexample — with offset 5, length 3 and every position
classified as code on line text `import foo`, `underline_range` returns the
point regions `(5,5), (6,6), (7,7)`, not the width-one ranges
`(5,6), (6,7), (7,8)` the claim calls unit ranges. -/
theorem underline_range_units_counterexample :
    underline_range vAllCode 1 5 [] 3 =
        [Region.point 5, Region.point 6, Region.point 7] ∧
      underline_range vAllCode 1 5 [] 3 ≠
        [(⟨5, 6⟩ : Region), (⟨6, 7⟩ : Region), (⟨7, 8⟩ : Region)] := by
  constructor
  · decide
  · decide

/-- Helper: a `filterMap` whose guard holds on every element is a `map`. -/
theorem filterMap_if_all {f : Nat → Region} {p : Nat → Bool} (l : List Nat)
    (h : ∀ i ∈ l, p i = true) :
    l.filterMap (fun i => if p i = true then some (f i) else none) = l.map f := by
  induction l with
  | nil => rfl
  | cons a t ih =>
    rw [List.filterMap_cons, List.map_cons, h a (by simp), if_pos rfl]
    exact congrArg (f a :: ·) (ih (fun i hi => h i (by simp [hi])))

/-- C3 (amended): when all `length` positions classify as code,
`underline_range` emits exactly `length` separate point regions at the
absolute offsets `position + lineStart + i`, `i < length` — one single-offset
region per position, not one contiguous range. -/
theorem underline_range_all_code (v : View) (lineno position n : Nat)
    (h : ∀ i < n,
      is_that_code v (position + lineBegin v (to_zero_based lineno) + i) = true) :
    underline_range v lineno position [] n =
      (List.range n).map
        (fun i => Region.point (position + lineBegin v (to_zero_based lineno) + i)) := by
  unfold underline_range
  rw [List.nil_append]
  exact filterMap_if_all (List.range n)
    (fun i hi => h i (List.mem_range.1 hi))

/-- C3 witness: the amended statement applied at the specification's example
(offset 5, length 3, all code). -/
theorem underline_range_all_code_witness :
    (∀ i < 3,
        is_that_code vAllCode (5 + lineBegin vAllCode (to_zero_based 1) + i) = true) ∧
      underline_range vAllCode 1 5 [] 3 =
        (List.range 3).map
          (fun i => Region.point (5 + lineBegin vAllCode (to_zero_based 1) + i)) :=
  ⟨by decide, underline_range_all_code vAllCode 1 5 3 (by decide)⟩

/-- C4: merging a pylint result with a standard-style (pep8) result unions
the touched-line sets and, for each severity, yields an underline list whose
length is the sum of the two inputs' underline-list lengths. -/
theorem merge_results_union_and_lengths (r p : ParseResult) :
    (merge_results r p).lines = r.lines ∪ p.lines ∧
      ∀ lv : Level,
        ((merge_results r p).levels lv).underlines.length =
          (r.levels lv).underlines.length + (p.levels lv).underlines.length :=
  ⟨rfl, fun _lv => List.length_append _ _⟩

/-- C5: for a one-based line number in `[1, lineCount]` the zero-based
round-trip is the identity, and the line accessor signals `OutOfRange` for
the one-based line `lineCount + 1`. -/
theorem line_number_roundtrip_and_oob (v : View) (n : Nat)
    (h1 : 1 ≤ n) (h2 : n ≤ v.lines.length) :
    to_one_based (to_zero_based n) = n ∧
      lineTextAndStart v (to_zero_based (v.lines.length + 1)) =
        .error .outOfRange := by
  constructor
  · unfold to_one_based to_zero_based
    omega
  · unfold lineTextAndStart to_zero_based
    rw [Nat.add_sub_cancel, if_neg (lt_irrefl _)]

/-- C5 witness: the round-trip and out-of-range statement at line 1 of the
one-line fixture view. -/
theorem line_number_roundtrip_and_oob_witness :
    1 ≤ 1 ∧ 1 ≤ vAllCode.lines.length ∧
      (to_one_based (to_zero_based 1) = 1 ∧
        lineTextAndStart vAllCode (to_zero_based (vAllCode.lines.length + 1)) =
          .error .outOfRange) :=
  ⟨by decide, by decide,
   line_number_roundtrip_and_oob vAllCode 1 (by decide) (by decide)⟩

/-- A store with no entries at all. -/
def emptyStore : Store :=
  ⟨fun _ => none, fun _ => none, fun _ => none, fun _ => none⟩

/-- A worker payload reporting failure. -/
def dataFail : ResultData :=
  { vid := 1, success := false, errors := none, errors_pylint := none
    pep8_errors := none }

/-- C8: when the worker reports `success = false`, `parse_results` performs
no update and returns the store unchanged, whatever the other inputs are. -/
theorem parse_results_failure_no_update (store : Store) (v : View)
    (data : ResultData) (is_python use_pylint ignore_star : Bool)
    (pylint_ignores : List PyStr) (pylint_rcfile : Bool)
    (h : data.success = false) :
    parse_results store v data is_python use_pylint ignore_star
      pylint_ignores pylint_rcfile = .ok store := by
  unfold parse_results
  rw [if_pos (Or.inl h)]

/-- C8 witness: the failure payload leaves the empty store untouched. -/
theorem parse_results_failure_no_update_witness :
    dataFail.success = false ∧
      parse_results emptyStore vAllCode dataFail true false true [] false =
        .ok emptyStore :=
  ⟨rfl,
   parse_results_failure_no_update emptyStore vAllCode dataFail true false true
     [] false rfl⟩

/-- C9: normalisation fixes an already-normalised message — non-empty, first
character a capital letter, no trailing period — so it is idempotent on its
own image. -/
theorem normalizeMsg_idempotent (c : Char) (rest : PyStr)
    (hcap : 'A' ≤ c ∧ c ≤ 'Z')
    (hdot : (c :: rest).getLast? ≠ some '.') :
    normalizeMsg (c :: rest) = some (c :: rest) := by
  have hU : c.toUpper = c := by
    rcases hcap with ⟨_h1, h2⟩
    rw [Char.le_def] at h2
    have h90 : c.toNat ≤ 90 := h2
    unfold Char.toUpper
    rw [if_neg (by omega)]
  simp only [normalizeMsg, hU]
  rw [if_neg hdot]

/-- C9 witness: normalisation at the already-normalised concrete message. -/
theorem normalizeMsg_idempotent_witness :
    ('A' ≤ 'U' ∧ 'U' ≤ 'Z') ∧
      ('U' :: "ndefined name x".toList).getLast? ≠ some '.' ∧
      normalizeMsg ('U' :: "ndefined name x".toList) =
        some ('U' :: "ndefined name x".toList) :=
  ⟨⟨by decide, by decide⟩, by decide,
   normalizeMsg_idempotent 'U' "ndefined name x".toList
     ⟨by decide, by decide⟩ (by decide)⟩

/-- C6: with the ignore flag set, a diagnostic whose raw message contains
`import *` contributes nothing — running `parse_errors` over a list
containing it equals running it over the list with that diagnostic removed,
so every other diagnostic in the same call is processed unaffected. -/
theorem parse_errors_skips_import_star (v : View) (iE iW iV : Msgs)
    (pre post : List StdError) (e : StdError)
    (h : hasImportStar e.raw_error = true) :
    parse_errors v true iE iW iV (some (pre ++ e :: post)) =
      parse_errors v true iE iW iV (some (pre ++ post)) := by
  have hskip : ∀ st : ParseResult, processError v true st e = .ok st := by
    intro st
    unfold processError
    rw [if_pos (by simp [h])]
  show List.foldlM (processError v true) ⟨∅, initLevels iE iW iV⟩ (pre ++ e :: post) =
    List.foldlM (processError v true) ⟨∅, initLevels iE iW iV⟩ (pre ++ post)
  rw [List.foldlM_append, List.foldlM_append]
  congr 1
  funext st
  rw [List.foldlM_cons, hskip st]
  rfl

/-- A pattern that never matches and never iterates. -/
def patNone : RePattern := { rmatch := fun _ => none, rfinditer := fun _ => [] }

/-- An import-star diagnostic for the C6 witness. -/
def eStar : StdError :=
  { level := .W, lineno := 2
    raw_error := "unable to detect undefined names from import *".toList
    pep8 := false, offset := 0, len := none
    linematch := none, regex := patNone, wordmatch := none }

/-- C6 witness: the skip theorem applied at a concrete import-star
diagnostic. -/
theorem parse_errors_skips_import_star_witness :
    hasImportStar eStar.raw_error = true ∧
      parse_errors vAllCode true emptyMsgs emptyMsgs emptyMsgs
          (some ([] ++ eStar :: [])) =
        parse_errors vAllCode true emptyMsgs emptyMsgs emptyMsgs
          (some ([] ++ [])) :=
  ⟨by decide,
   parse_errors_skips_import_star vAllCode emptyMsgs emptyMsgs emptyMsgs [] []
     eStar (by decide)⟩

/-- C7: a regex descriptor whose line-match pattern does not match the line
resolves to an empty result without raising — `underline_regex` returns the
underline list unchanged — and the diagnostic's message is still recorded in
its severity bucket by the `parse_errors` loop body. -/
theorem regex_nomatch_empty_and_message (v : View) (ig : Bool)
    (st : ParseResult) (e : StdError) (lm : RePattern) (m : PyStr)
    (hskip : (hasImportStar e.raw_error && ig) = false)
    (hp : e.pep8 = false) (hl : e.len = none) (hlm : e.linematch = some lm)
    (hmat : lm.rmatch (lineText v (to_zero_based e.lineno)) = none)
    (hnorm : normalizeMsg e.raw_error = some m) :
    (∀ (lines : Finset Nat) (uls : List Region),
        underline_regex v e.lineno e.linematch e.regex e.wordmatch lines uls =
          .ok (insert (to_zero_based e.lineno) lines, uls)) ∧
      ∃ st', processError v ig st e = .ok st' ∧
        (∀ lv, (st'.levels lv).underlines = (st.levels lv).underlines) ∧
        (st'.levels e.level).messages (to_zero_based e.lineno) =
          (st.levels e.level).messages (to_zero_based e.lineno) ++ [m] := by
  have hreg : ∀ (lines : Finset Nat) (uls : List Region),
      underline_regex v e.lineno e.linematch e.regex e.wordmatch lines uls =
        .ok (insert (to_zero_based e.lineno) lines, uls) := by
    intro lines uls
    rw [hlm]
    simp only [underline_regex, hmat]
  refine ⟨hreg, ?_⟩
  refine ⟨⟨insert (to_zero_based e.lineno) (insert (to_zero_based e.lineno) st.lines),
    fun l =>
      if l = e.level then
        ⟨addMsg (st.levels e.level).messages (to_zero_based e.lineno) m,
          (st.levels e.level).underlines⟩
      else st.levels l⟩, ?_, ?_, ?_⟩
  · simp only [processError, hskip, Bool.false_eq_true, if_false,
      add_message, hnorm, hp, hl, setLevel, hreg]
    simp
    funext l
    by_cases hlv : l = e.level
    · simp [hlv]
    · simp [hlv]
  · intro lv
    by_cases hlv : lv = e.level
    · subst hlv
      simp
    · simp [hlv]
  · simp [addMsg]

/-- A match object whose pattern defines no groups at all. -/
def matchNoGroups : ReMatch := ⟨fun _ => none⟩

/-- A line-match pattern that always matches but defines no `match` group. -/
def patLm : RePattern :=
  { rmatch := fun _ => some matchNoGroups, rfinditer := fun _ => [] }

/-- An extraction pattern yielding one match that lacks the `underline`
group. -/
def patIter : RePattern :=
  { rmatch := fun _ => none, rfinditer := fun _ => [matchNoGroups] }

/-- A regex-descriptor diagnostic whose line-match pattern never matches, for
the C7 witness. -/
def eC7 : StdError :=
  { level := .E, lineno := 1, raw_error := "undefined name x".toList
    pep8 := false, offset := 0, len := none
    linematch := some patNone, regex := patNone, wordmatch := none }

/-- The empty aggregation state. -/
def emptyParse : ParseResult := ⟨∅, initLevels emptyMsgs emptyMsgs emptyMsgs⟩

/-- C7 witness: the no-match theorem applied at a concrete never-matching
line-match pattern. -/
theorem regex_nomatch_empty_and_message_witness :
    normalizeMsg eC7.raw_error = some "Undefined name x".toList ∧
      ((∀ (lines : Finset Nat) (uls : List Region),
          underline_regex vAllCode eC7.lineno eC7.linematch eC7.regex
              eC7.wordmatch lines uls =
            .ok (insert (to_zero_based eC7.lineno) lines, uls)) ∧
        ∃ st', processError vAllCode true emptyParse eC7 = .ok st' ∧
          (∀ lv, (st'.levels lv).underlines =
            (emptyParse.levels lv).underlines) ∧
          (st'.levels eC7.level).messages (to_zero_based eC7.lineno) =
            (emptyParse.levels eC7.level).messages (to_zero_based eC7.lineno) ++
              ["Undefined name x".toList]) :=
  ⟨by decide,
   regex_nomatch_empty_and_message vAllCode true emptyParse eC7 patNone
     "Undefined name x".toList (by decide) rfl rfl rfl rfl (by decide)⟩

/-- C10: the regex path requires its named capture groups: when the
line-match pattern matches, resolution reads the group `match`, and
extraction reads the group `underline` from every match of the extraction
pattern; a matching pattern lacking the required group makes
`underline_regex` raise (`IndexError: no such group`) instead of returning an
empty result. -/
theorem underline_regex_missing_group_raises :
    (∀ (v : View) (lineno : Nat) (lm regex : RePattern) (wm : Option PyStr)
        (lines : Finset Nat) (uls : List Region) (m : ReMatch),
      lm.rmatch (lineText v (to_zero_based lineno)) = some m →
      m.groups "match" = none →
      underline_regex v lineno (some lm) regex wm lines uls =
        .error (.noSuchGroup "match")) ∧
    (∀ (v : View) (lineno : Nat) (regex : RePattern) (wm : Option PyStr)
        (lines : Finset Nat) (uls : List Region) (r : ReMatch)
        (rs : List ReMatch),
      regex.rfinditer (lineText v (to_zero_based lineno)) = r :: rs →
      r.groups "underline" = none →
      underline_regex v lineno none regex wm lines uls =
        .error (.noSuchGroup "underline")) := by
  constructor
  · intro v lineno lm regex wm lines uls m h1 h2
    simp only [underline_regex, h1, h2]
  · intro v lineno regex wm lines uls r rs h1 h2
    simp only [underline_regex, h1, collectSpans, h2]

/-- C10 witness: both raising branches at concrete groupless patterns. -/
theorem underline_regex_missing_group_raises_witness :
    underline_regex vAllCode 1 (some patLm) patNone none ∅ [] =
        .error (.noSuchGroup "match") ∧
      underline_regex vAllCode 1 none patIter none ∅ [] =
        .error (.noSuchGroup "underline") :=
  ⟨underline_regex_missing_group_raises.1 vAllCode 1 patLm patNone none ∅ []
     matchNoGroups rfl rfl,
   underline_regex_missing_group_raises.2 vAllCode 1 patIter none ∅ []
     matchNoGroups [] rfl rfl⟩
